import Mathlib

/-!
Verification of the claudectl core: a shallow embedding of the data model
(`src/data/mod.rs`), the durable JSON store (`src/storage/mod.rs`), the
session process supervisor (`src/process.rs`) and the workspace
orchestrator (`src/modules/workspace/mod.rs`), with theorems settling the
spec's testable properties.

Modelling conventions: timestamps are `Nat`, filesystem paths are
`String`, the set of existing directories is a `List String`,
`HashMap<String, _>` registries are association lists, and serde JSON
values are the `Content` inductive capturing exactly the parse-relevant
cases (serde ignores unknown fields, so a legacy `AppData` document also
parses as `SessionData`).
-/

set_option autoImplicit false

namespace Claudectl

/-- `SessionStatus` from `src/data/mod.rs`. -/
inductive SessionStatus where
  | Active
  | Stopped
  | Error
  deriving DecidableEq, Repr

/-- `Session` from `src/data/mod.rs`; `created_at : DateTime<Utc>` is a `Nat` tick. -/
structure Session where
  id : String
  project_id : Option String
  status : SessionStatus
  created_at : Nat
  deriving DecidableEq, Repr

/-- `Project` from `src/data/mod.rs`; `path : PathBuf` is a `String`. -/
structure Project where
  id : String
  name : String
  path : String
  created_at : Nat
  last_accessed : Option Nat
  deriving DecidableEq, Repr

/-- `AppStats` from `src/data/mod.rs`. -/
structure AppStats where
  total_projects : Nat
  active_sessions : Nat
  total_runtime : Nat
  deriving DecidableEq, Repr

/-- `AppStats::new`. -/
def AppStats.new : AppStats :=
  { total_projects := 0, active_sessions := 0, total_runtime := 0 }

/-- `SessionStats` from `src/data/mod.rs`. -/
structure SessionStats where
  active_sessions : Nat
  total_runtime : Nat
  deriving DecidableEq, Repr

/-- `SessionStats::new`. -/
def SessionStats.new : SessionStats :=
  { active_sessions := 0, total_runtime := 0 }

/-- `AppData` from `src/data/mod.rs`. -/
structure AppData where
  projects : List Project
  sessions : List Session
  stats : AppStats
  deriving DecidableEq, Repr

/-- `AppData::new`. -/
def AppData.new : AppData :=
  { projects := [], sessions := [], stats := AppStats.new }

/-- `SessionData` from `src/data/mod.rs`. -/
structure SessionData where
  sessions : List Session
  stats : SessionStats
  deriving DecidableEq, Repr

/-- `SessionData::new`. -/
def SessionData.new : SessionData :=
  { sessions := [], stats := SessionStats.new }

/-- The `matches!(s.status, SessionStatus::Active)` filter used by both stats updaters. -/
def isActive (s : Session) : Bool :=
  s.status == SessionStatus.Active

/-- `AppData::update_stats` (private helper, `src/data/mod.rs` lines 241-248). -/
def AppData.update_stats (d : AppData) : AppData :=
  { d with stats :=
      { d.stats with
        total_projects := d.projects.length
        active_sessions := (d.sessions.filter isActive).length } }

/-- `AppData::add_project`. -/
def AppData.add_project (d : AppData) (p : Project) : AppData :=
  ({ d with projects := d.projects ++ [p] }).update_stats

/-- `AppData::remove_project`: removes the first project with the given id
(`Vec::remove` at the found position) and recomputes stats; returns the
removed project alongside the new state. -/
def AppData.remove_project (d : AppData) (project_id : String) :
    Option Project × AppData :=
  match d.projects.find? (fun p => p.id == project_id) with
  | some p =>
      (some p,
        ({ d with projects := d.projects.eraseP (fun q => q.id == project_id) }).update_stats)
  | none => (none, d)

/-- `AppData::add_session`. -/
def AppData.add_session (d : AppData) (s : Session) : AppData :=
  ({ d with sessions := d.sessions ++ [s] }).update_stats

/-- Mutating the first session with the given id through
`AppData::get_session_mut` followed by `Session::stop` / `Session::set_error`:
the status field is overwritten in place and `update_stats` is NOT called. -/
def setStatusFirst : List Session → String → SessionStatus → List Session
  | [], _, _ => []
  | s :: rest, sid, st =>
      if s.id == sid then { s with status := st } :: rest
      else s :: setStatusFirst rest sid st

/-- `get_session_mut(sid)` then `stop()` on `AppData` (no stats update). -/
def AppData.stop_session_status (d : AppData) (sid : String) : AppData :=
  { d with sessions := setStatusFirst d.sessions sid SessionStatus.Stopped }

/-- `SessionData::update_stats` (`src/data/mod.rs` lines 162-168). -/
def SessionData.update_stats (d : SessionData) : SessionData :=
  { d with stats :=
      { d.stats with active_sessions := (d.sessions.filter isActive).length } }

/-- `SessionData::add_session`. -/
def SessionData.add_session (d : SessionData) (s : Session) : SessionData :=
  ({ d with sessions := d.sessions ++ [s] }).update_stats

/-- `SessionData::remove_session`: removes the first session with the given id
and recomputes stats; `None` leaves the data untouched. -/
def SessionData.remove_session (d : SessionData) (session_id : String) :
    Option Session × SessionData :=
  match d.sessions.find? (fun s => s.id == session_id) with
  | some s =>
      (some s,
        ({ d with sessions := d.sessions.eraseP (fun t => t.id == session_id) }).update_stats)
  | none => (none, d)

/-- The spec's derived-stats consistency predicate for `AppData`:
`total_projects` is the number of projects and `active_sessions` the number
of Active-status sessions. -/
def AppData.stats_ok (d : AppData) : Bool :=
  d.stats.total_projects == d.projects.length &&
    d.stats.active_sessions == (d.sessions.filter isActive).length

/-- The spec's derived-stats consistency predicate for `SessionData`. -/
def SessionData.stats_ok (d : SessionData) : Bool :=
  d.stats.active_sessions == (d.sessions.filter isActive).length

/-- `StorageError` from `src/storage/mod.rs` (IO error payloads abstracted away). -/
inductive StorageError where
  | Io
  | Serialization
  | ConfigDirNotFound
  | DataCorruption (msg : String)
  deriving DecidableEq, Repr

deriving instance DecidableEq for Except

/-- The parse-relevant content of the `sessions.json` file. `blank` is a
present file whose text trims to empty; `appJson d` is the serde output of
an `AppData` value `d`; `sessJson d` the serde output of a `SessionData`
value; `garbage n` is text that is valid as neither schema. -/
inductive Content where
  | blank
  | appJson (d : AppData)
  | sessJson (d : SessionData)
  | garbage (n : Nat)
  deriving DecidableEq, Repr

/-- `contents.trim().is_empty()`. -/
def Content.isBlank : Content → Bool
  | .blank => true
  | _ => false

/-- `serde_json::from_str::<AppData>`: only the serde output of an `AppData`
value has the required `projects` field, so everything else fails. -/
def parseAppData : Content → Option AppData
  | .appJson d => some d
  | _ => none

/-- The `SessionData` view of a legacy `AppData` document: serde ignores
the unknown `projects` and `stats.total_projects` fields. -/
def sessionView (d : AppData) : SessionData :=
  { sessions := d.sessions
    stats := { active_sessions := d.stats.active_sessions
               total_runtime := d.stats.total_runtime } }

/-- `serde_json::from_str::<SessionData>`: succeeds on a `SessionData`
document and also on a legacy `AppData` document (unknown fields ignored). -/
def parseSessionData : Content → Option SessionData
  | .sessJson d => some d
  | .appJson d => some (sessionView d)
  | _ => none

/-- The on-disk state of one resolved configuration directory:
`sessions.json`, `sessions.json.backup`, and the accumulated
`sessions_corrupted_<timestamp>.json.backup` quarantine copies. -/
structure Store where
  dataFile : Option Content
  backupFile : Option Content
  quarantine : List Content
  deriving DecidableEq, Repr

/-- An empty configuration directory. -/
def Store.empty : Store :=
  { dataFile := none, backupFile := none, quarantine := [] }

/-- The quarantine file name format of `JsonStorage::create_corrupted_backup`. -/
def corrupted_backup_name (timestamp : String) : String :=
  "sessions_corrupted_" ++ timestamp ++ ".json.backup"

/-- The per-project check in `JsonStorage::validate_data_integrity`. -/
def validateProject (p : Project) : Except StorageError Unit :=
  if p.id.isEmpty then
    Except.error (StorageError.DataCorruption "Project with empty ID found")
  else if p.name.isEmpty then
    Except.error (StorageError.DataCorruption ("Project " ++ p.id ++ " has empty name"))
  else Except.ok ()

/-- The per-session check shared by `validate_data_integrity` and
`validate_session_data_integrity`. -/
def validateSession (s : Session) : Except StorageError Unit :=
  if s.id.isEmpty then
    Except.error (StorageError.DataCorruption "Session with empty ID found")
  else Except.ok ()

/-- `JsonStorage::validate_data_integrity` (`src/storage/mod.rs` lines 116-141). -/
def validate_data_integrity (data : AppData) : Except StorageError Unit := do
  data.projects.forM validateProject
  data.sessions.forM validateSession

/-- `JsonStorage::validate_session_data_integrity`. -/
def validate_session_data_integrity (data : SessionData) : Except StorageError Unit :=
  data.sessions.forM validateSession

/-- `Project::exists`: the path is an existing directory; `dirs` is the set
of directories present on the host filesystem. -/
def Project.dirPresent (dirs : List String) (p : Project) : Bool :=
  dirs.contains p.path

/-- `JsonStorage::validate_projects` (`src/storage/mod.rs` lines 186-197):
retain the projects whose paths exist, collect the ids of the rest. -/
def validate_projects (dirs : List String) (projects : List Project) :
    List Project × List String :=
  (projects.filter (fun p => p.dirPresent dirs),
    (projects.filter (fun p => !p.dirPresent dirs)).map (fun p => p.id))

/-- `JsonStorage::create_backup`: copy `sessions.json` over
`sessions.json.backup` when it exists. -/
def create_backup (st : Store) : Store :=
  match st.dataFile with
  | some c => { st with backupFile := some c }
  | none => st

/-- Net effect of `JsonStorage::atomic_write`: serialize and install the new
content as `sessions.json` (the step-by-step temporary-file trace is modelled
separately below for the atomicity claim). -/
def atomic_write (data : AppData) (st : Store) : Store :=
  { st with dataFile := some (Content.appJson data) }

/-- `JsonStorage::save` (`src/storage/mod.rs` lines 173-184). -/
def save (data : AppData) (st : Store) : Except StorageError Store :=
  match validate_data_integrity data with
  | Except.error e => Except.error e
  | Except.ok _ => Except.ok (atomic_write data (create_backup st))

/-- `JsonStorage::load` (`src/storage/mod.rs` lines 145-171): missing or
blank file gives the default; otherwise parse, validate, auto-prune stale
projects and re-save when anything was pruned. -/
def load (dirs : List String) (st : Store) : Except StorageError (AppData × Store) :=
  match st.dataFile with
  | none => Except.ok (AppData.new, st)
  | some c =>
    if c.isBlank then Except.ok (AppData.new, st)
    else
      match parseAppData c with
      | none => Except.error StorageError.Serialization
      | some data =>
          match validate_data_integrity data with
          | Except.error e => Except.error e
          | Except.ok _ =>
              let kept := (validate_projects dirs data.projects).1
              let removed_ids := (validate_projects dirs data.projects).2
              let data' := { data with projects := kept }
              if removed_ids.isEmpty then Except.ok (data', st)
              else
                match save data' st with
                | Except.error e => Except.error e
                | Except.ok st' => Except.ok (data', st')

/-- `JsonStorage::create_session_backup` (same copy as `create_backup`). -/
def create_session_backup (st : Store) : Store :=
  match st.dataFile with
  | some c => { st with backupFile := some c }
  | none => st

/-- Net effect of `JsonStorage::atomic_write_sessions`. -/
def atomic_write_sessions (data : SessionData) (st : Store) : Store :=
  { st with dataFile := some (Content.sessJson data) }

/-- `JsonStorage::save_sessions`. -/
def save_sessions (data : SessionData) (st : Store) : Except StorageError Store :=
  match validate_session_data_integrity data with
  | Except.error e => Except.error e
  | Except.ok _ => Except.ok (atomic_write_sessions data (create_session_backup st))

/-- `JsonStorage::create_corrupted_backup`: copy the unreadable
`sessions.json` to a fresh timestamped quarantine path. -/
def create_corrupted_backup (st : Store) : Store :=
  match st.dataFile with
  | some c => { st with quarantine := st.quarantine ++ [c] }
  | none => st

/-- `JsonStorage::load_sessions` (`src/storage/mod.rs` lines 205-250):
missing/blank gives the default; else try the current schema, then the
legacy combined schema (migrating and re-saving), else quarantine the file
and return the default. -/
def load_sessions (st : Store) : Except StorageError (SessionData × Store) :=
  match st.dataFile with
  | none => Except.ok (SessionData.new, st)
  | some c =>
    if c.isBlank then Except.ok (SessionData.new, st)
    else
      match parseSessionData c with
      | some data =>
          match validate_session_data_integrity data with
          | Except.error e => Except.error e
          | Except.ok _ => Except.ok (data, st)
      | none =>
          match parseAppData c with
          | some old_data =>
              let session_data := sessionView old_data
              match save_sessions session_data st with
              | Except.error e => Except.error e
              | Except.ok st' => Except.ok (session_data, st')
          | none =>
              Except.ok (SessionData.new, create_corrupted_backup st)

/-- `save(data)` followed by `load()`, returning the loaded data. -/
def save_then_load (dirs : List String) (data : AppData) (st : Store) :
    Except StorageError AppData :=
  match save data st with
  | Except.error e => Except.error e
  | Except.ok st1 =>
      match load dirs st1 with
      | Except.error e => Except.error e
      | Except.ok (data', _) => Except.ok data'

/-! ## Small-step model of the atomic write (for the crash-safety claim)

A single file on disk is absent, completely written, or mid-write with `k`
of its chunks flushed; a plain `fs::write` passes through the mid-write
states, while `fs::rename` replaces the target in one step. -/

/-- The observable state of one file during a write. -/
inductive FileState where
  | absent
  | midWrite (c : Content) (k : Nat)
  | complete (c : Content)
  deriving DecidableEq, Repr

/-- The three files `JsonStorage::save` touches, at chunk granularity. -/
structure DiskState where
  target : FileState
  tmp : FileState
  backup : FileState
  deriving DecidableEq, Repr

/-- The intermediate disk states of `fs::write(&temp_file, json)` writing
content `c` in `n` chunks: the temporary file goes through every mid-write
prefix and ends complete; nothing else moves. -/
def writeTmpStates (c : Content) (n : Nat) (d : DiskState) : List DiskState :=
  ((List.range n).map (fun k => { d with tmp := FileState.midWrite c k })) ++
    [{ d with tmp := FileState.complete c }]

/-- `fs::rename(temp_file, &self.data_file)`: one atomic step moving the
temporary file over the target. -/
def renameTmp (d : DiskState) : DiskState :=
  { d with target := d.tmp, tmp := FileState.absent }

/-- The intermediate disk states of `fs::copy(&self.data_file, backup_file)`
copying content `c` in `n` chunks into the backup file. -/
def copyBackupStates (c : Content) (n : Nat) (d : DiskState) : List DiskState :=
  ((List.range n).map (fun k => { d with backup := FileState.midWrite c k })) ++
    [{ d with backup := FileState.complete c }]

/-- Every disk state observable during `JsonStorage::save` writing the
serialized form of `data` (the same sequence serves
`atomic_write_sessions`, with `c` the session document): the initial
state, the backup-copy states when a target exists, the temporary-file
write states, and the state after the rename. `nb` and `nw` are the chunk
counts of the two writes. -/
def save_trace (c : Content) (nb nw : Nat) (d : DiskState) : List DiskState :=
  let afterBackup : DiskState :=
    match d.target with
    | FileState.complete old => { d with backup := FileState.complete old }
    | _ => d
  let backupStates : List DiskState :=
    match d.target with
    | FileState.complete old => copyBackupStates old nb d
    | _ => []
  let writeStates := writeTmpStates c nw afterBackup
  let afterWrite := { afterBackup with tmp := FileState.complete c }
  d :: backupStates ++ writeStates ++ [renameTmp afterWrite]

/-! ## Session process supervisor (`src/process.rs`) -/

/-- `ProcessError` from `src/process.rs` (the `std::io::Error` payload of
`SpawnError` abstracted away). -/
inductive ProcessError where
  | SpawnError
  | SessionNotFound (sid : String)
  | ProcessAlreadyRunning (sid : String)
  | ClaudeCodeNotFound
  deriving DecidableEq, Repr

/-- `ProcessHandle` from `src/process.rs` (the child handle and output
buffer carry no information the claims need beyond identity). -/
structure ProcessHandle where
  session_id : String
  project_path : Option String
  deriving DecidableEq, Repr

/-- The supervisor's `HashMap<String, ProcessHandle>` registry, as an
association list (the map's keys are unique; spawn only inserts a key it
just checked to be absent). -/
abbrev Registry := List (String × ProcessHandle)

/-- `HashMap::contains_key`. -/
def containsKey (reg : Registry) (sid : String) : Bool :=
  reg.any (fun p => p.1 == sid)

/-- `HashMap::remove`: drop the (unique) entry with this key. -/
def eraseKey (reg : Registry) (sid : String) : Registry :=
  reg.filter (fun p => !(p.1 == sid))

/-- The unique-keys invariant a `HashMap` maintains. -/
def NodupKeys (reg : Registry) : Prop :=
  (reg.map Prod.fst).Nodup

/-- The OS facts `spawn_claude_session` consults: whether the `claude`
version probe succeeds and whether `Command::spawn` succeeds. -/
structure OsEnv where
  claude_available : Bool
  spawn_ok : Bool
  deriving DecidableEq, Repr

/-- `ProcessManager::spawn_claude_session` (`src/process.rs` lines 42-110):
the registry membership check, then the availability probe, then the OS
spawn; on success the new handle is inserted. Returns the result together
with the registry after the call. -/
def spawn_claude_session (os : OsEnv) (session : Session)
    (project_path : Option String) (reg : Registry) :
    Except ProcessError Unit × Registry :=
  if containsKey reg session.id then
    (Except.error (ProcessError.ProcessAlreadyRunning session.id), reg)
  else if !os.claude_available then
    (Except.error ProcessError.ClaudeCodeNotFound, reg)
  else if !os.spawn_ok then
    (Except.error ProcessError.SpawnError, reg)
  else
    (Except.ok (),
      reg ++ [(session.id, { session_id := session.id, project_path := project_path })])

/-- `ProcessManager::stop_session` (`src/process.rs` lines 113-126):
remove the handle (then kill the child), or fail with `SessionNotFound`. -/
def stop_session (sid : String) (reg : Registry) :
    Except ProcessError Unit × Registry :=
  if containsKey reg sid then (Except.ok (), eraseKey reg sid)
  else (Except.error (ProcessError.SessionNotFound sid), reg)

/-- The outcome of `Child::try_wait` for one session's child process. -/
inductive TryWaitR where
  | exited
  | running
  | pollErr
  deriving DecidableEq, Repr

/-- The reported liveness for a poll outcome, as in the `match` of
`get_session_statuses`: `Ok(Some(_))` and `Err(_)` report not-running,
`Ok(None)` reports running. -/
def pollStatus : TryWaitR → Bool
  | TryWaitR.exited => false
  | TryWaitR.running => true
  | TryWaitR.pollErr => false

/-- `ProcessManager::get_session_statuses` (`src/process.rs` lines 135-165):
record a status for every registered handle, collect the dead ones in
`to_remove`, then remove them; `poll` gives each session's `try_wait`
outcome. -/
def get_session_statuses (poll : String → TryWaitR) (reg : Registry) :
    List (String × Bool) × Registry :=
  let statuses := reg.map (fun h => (h.1, pollStatus (poll h.1)))
  let to_remove := (reg.filter (fun h => !pollStatus (poll h.1))).map Prod.fst
  (statuses, to_remove.foldl (fun r sid => eraseKey r sid) reg)

/-! ## Workspace orchestrator (`src/modules/workspace/mod.rs`) -/

/-- `ClaudeCtlError` variants the workspace path can produce. -/
inductive ClaudeCtlError where
  | Validation (msg : String)
  | Git (msg : String)
  | Environment (msg : String)
  | IoError
  deriving DecidableEq, Repr

/-- `validate_workspace_name` (`src/modules/workspace/mod.rs` lines 9-23). -/
def validate_workspace_name (name : String) : Except ClaudeCtlError Unit :=
  if name.isEmpty then
    Except.error (ClaudeCtlError.Validation "Workspace name cannot be empty")
  else if name.length > 100 then
    Except.error (ClaudeCtlError.Validation "Workspace name too long (max 100 characters)")
  else if name.data.contains '/' || name.data.contains '\\' then
    Except.error (ClaudeCtlError.Validation "Workspace name cannot contain path separators")
  else if name.data.contains (Char.ofNat 0) then
    Except.error (ClaudeCtlError.Validation "Workspace name cannot contain null characters")
  else Except.ok ()

/-- The set of directories on disk, as a duplicate-free-by-use list. -/
abbrev FsState := List String

/-- `fs::create_dir_all` restricted to the named path (idempotent). -/
def addDir (fs : FsState) (p : String) : FsState :=
  if fs.contains p then fs else fs ++ [p]

/-- `fs::remove_dir_all`: remove the path and everything below it. -/
def removeDirAll (fs : FsState) (p : String) : FsState :=
  fs.filter (fun q => !(q == p || (p ++ "/").data.isPrefixOf q.data))

/-- `CleanupGuard::drop` with `should_cleanup` still set: remove every
registered path (`src/modules/workspace/mod.rs` lines 48-56). -/
def cleanupPaths (fs : FsState) (paths : List String) : FsState :=
  paths.foldl removeDirAll fs

/-- The local workspace metadata directory `./.claudectl/workspaces/{id}`. -/
def workspace_dir_of (workspace_id : String) : String :=
  "./.claudectl/workspaces/" ++ workspace_id

/-- The per-user worktree parent `~/.claudectl/projects/{repo}`. -/
def worktree_parent_of (home repo : String) : String :=
  home ++ "/.claudectl/projects/" ++ repo

/-- The worktree directory `~/.claudectl/projects/{repo}/{id}`. -/
def worktree_path_of (home repo workspace_id : String) : String :=
  worktree_parent_of home repo ++ "/" ++ workspace_id

/-- The external facts `workspace::initialize` consults: the repository
name, the home directory (absent when neither HOME nor USERPROFILE is
set), the outcome of `git::get_current_branch`, whether
`git worktree add` succeeds, and whether writing the workspace config
file succeeds. -/
structure InitEnv where
  repo_name : String
  home : Option String
  current_branch : Except ClaudeCtlError String
  worktree_add_ok : Bool
  config_save_ok : Bool
  deriving Repr

/-- `workspace::initialize` (`src/modules/workspace/mod.rs` lines 75-123),
tracking the directories on disk. The guard registers the workspace
directory after creating it and the worktree path after creating its
parent; on any later failure the guard drops with cleanup enabled, on
success it is disarmed. Returns the result with the final filesystem. -/
def initWorkspace (env : InitEnv) (workspace_id name : String) (fs : FsState) :
    Except ClaudeCtlError Unit × FsState :=
  match validate_workspace_name name with
  | Except.error e => (Except.error e, fs)
  | Except.ok _ =>
    let workspace_dir := workspace_dir_of workspace_id
    let fs1 := addDir fs workspace_dir
    match env.home with
    | none =>
        (Except.error (ClaudeCtlError.Environment
          "Could not determine home directory (HOME or USERPROFILE not set)"),
         cleanupPaths fs1 [workspace_dir])
    | some home =>
      let worktree_path := worktree_path_of home env.repo_name workspace_id
      let worktree_parent := worktree_parent_of home env.repo_name
      let fs2 := addDir fs1 worktree_parent
      let guard := [workspace_dir, worktree_path]
      match env.current_branch with
      | Except.error e => (Except.error e, cleanupPaths fs2 guard)
      | Except.ok _current_branch =>
        if !env.worktree_add_ok then
          (Except.error (ClaudeCtlError.Git "Error creating git worktree"),
           cleanupPaths fs2 guard)
        else
          let fs3 := addDir fs2 worktree_path
          if !env.config_save_ok then
            (Except.error ClaudeCtlError.IoError, cleanupPaths fs3 guard)
          else (Except.ok (), fs3)

/-! ## Concrete instances used by the theorems below -/

/-- A fully valid project whose path does not exist on disk. -/
def projGone : Project :=
  { id := "p1", name := "proj", path := "/gone", created_at := 0, last_accessed := none }

/-- An integrity-valid store state containing only `projGone`. -/
def dataGone : AppData := AppData.new.add_project projGone

/-- A store whose data file holds unparseable text. -/
def garbageStore : Store :=
  { dataFile := some (Content.garbage 0), backupFile := none, quarantine := [] }

/-- `garbageStore` after its data file has been quarantined. -/
def garbageStoreQuarantined : Store :=
  { dataFile := some (Content.garbage 0), backupFile := none,
    quarantine := [Content.garbage 0] }

/-- An execution environment where the `git worktree add` call fails. -/
def envAddFails : InitEnv :=
  { repo_name := "repo", home := some "/home/u",
    current_branch := Except.ok "main", worktree_add_ok := false,
    config_save_ok := true }

/-- An execution environment where every step succeeds. -/
def envAllOk : InitEnv :=
  { repo_name := "repo", home := some "/home/u",
    current_branch := Except.ok "main", worktree_add_ok := true,
    config_save_ok := true }

/-- A concrete session with Active status. -/
def sessA : Session :=
  { id := "s1", project_id := none, status := SessionStatus.Active, created_at := 0 }

/-! ## Registry lemmas -/

theorem containsKey_iff_mem_keys (reg : Registry) (sid : String) :
    containsKey reg sid = true ↔ sid ∈ reg.map Prod.fst := by
  simp [containsKey, List.any_eq_true, List.mem_map]

theorem containsKey_eraseKey_self (reg : Registry) (sid : String) :
    containsKey (eraseKey reg sid) sid = false := by
  simp [containsKey, eraseKey, List.any_eq_true, List.mem_filter]

theorem containsKey_eraseKey_of_false (reg : Registry) (sid t : String)
    (h : containsKey reg sid = false) :
    containsKey (eraseKey reg t) sid = false := by
  rw [← Bool.not_eq_true] at h ⊢
  intro hc
  apply h
  rw [containsKey_iff_mem_keys] at hc ⊢
  rcases List.mem_map.mp hc with ⟨p, hp, rfl⟩
  exact List.mem_map.mpr ⟨p, (List.mem_filter.mp hp).1, rfl⟩

theorem mem_eraseKey_of_ne (reg : Registry) (t : String)
    (x : String × ProcessHandle) (hx : x ∈ reg) (hne : x.1 ≠ t) :
    x ∈ eraseKey reg t := by
  simp [eraseKey, List.mem_filter, hx, hne]

theorem containsKey_foldl_erase_of_false (L : List String) (reg : Registry)
    (sid : String) (h : containsKey reg sid = false) :
    containsKey (L.foldl (fun r s => eraseKey r s) reg) sid = false := by
  induction L generalizing reg with
  | nil => exact h
  | cons a L ih =>
      exact ih (eraseKey reg a) (containsKey_eraseKey_of_false reg sid a h)

theorem containsKey_foldl_erase_of_mem (L : List String) (reg : Registry)
    (sid : String) (h : sid ∈ L) :
    containsKey (L.foldl (fun r s => eraseKey r s) reg) sid = false := by
  induction L generalizing reg with
  | nil => cases h
  | cons a L ih =>
      rcases List.mem_cons.mp h with rfl | h
      · by_cases hm : sid ∈ L
        · exact ih (eraseKey reg sid) hm
        · exact containsKey_foldl_erase_of_false L (eraseKey reg sid) sid
            (containsKey_eraseKey_self reg sid)
      · exact ih (eraseKey reg a) h

theorem lookup_cons_ne (f : String → Bool) (reg : Registry)
    (sid : String) (a : String × ProcessHandle) (hs : (sid == a.1) = false) :
    List.lookup sid ((a :: reg).map (fun p => (p.1, f p.1))) =
      List.lookup sid (reg.map (fun p => (p.1, f p.1))) := by
  simp [List.lookup, hs]

theorem mem_foldl_erase (L : List String) (reg : Registry)
    (x : String × ProcessHandle) (hx : x ∈ reg) (hL : x.1 ∉ L) :
    x ∈ L.foldl (fun r s => eraseKey r s) reg := by
  induction L generalizing reg with
  | nil => exact hx
  | cons a L ih =>
      have hne : x.1 ≠ a := fun h => hL (by simp [h])
      exact ih (eraseKey reg a) (mem_eraseKey_of_ne reg a x hx hne)
        (fun h => hL (List.mem_cons_of_mem a h))

theorem lookup_map_key_of_mem (f : String → Bool) (reg : Registry)
    (sid : String) (h : ProcessHandle) :
    (sid, h) ∈ reg →
    List.lookup sid (reg.map (fun p => (p.1, f p.1))) = some (f sid) := by
  induction reg with
  | nil => intro hmem; cases hmem
  | cons a reg ih =>
      intro hmem
      by_cases ha : a.1 = sid
      · simp [List.lookup, ha]
      · have hmem' : (sid, h) ∈ reg := by
          rcases List.mem_cons.mp hmem with heq | hm
          · exact absurd (congrArg Prod.fst heq.symm) ha
          · exact hm
        have hs : (sid == a.1) = false := by
          simp only [beq_eq_false_iff_ne]
          exact fun e => ha e.symm
        rw [lookup_cons_ne f reg sid a hs]
        exact ih hmem'

theorem lookup_map_key_of_not_contains (f : String → Bool) (reg : Registry)
    (sid : String) (h : containsKey reg sid = false) :
    List.lookup sid (reg.map (fun p => (p.1, f p.1))) = none := by
  induction reg with
  | nil => rfl
  | cons a reg ih =>
      simp only [containsKey, List.any_cons, Bool.or_eq_false_iff] at h
      have hs : (sid == a.1) = false := by
        have h1 := h.1
        simp only [beq_eq_false_iff_ne] at h1 ⊢
        exact fun e => h1 e.symm
      rw [lookup_cons_ne f reg sid a hs]
      exact ih (by simpa [containsKey] using h.2)

/-! ## Claims C1, C8, C10: spawn and stop against the registry -/

/-- **C1.** If a process handle is already registered for a session
identifier, `spawn_claude_session` fails with the already-running error
and leaves the registry unchanged; and every outcome of `spawn` preserves
the one-handle-per-identifier invariant (unique keys). -/
theorem spawn_already_running_unique (os : OsEnv) (s : Session)
    (pp : Option String) (reg : Registry) :
    (containsKey reg s.id = true →
       spawn_claude_session os s pp reg =
         (Except.error (ProcessError.ProcessAlreadyRunning s.id), reg)) ∧
    (NodupKeys reg → NodupKeys (spawn_claude_session os s pp reg).2) := by
  constructor
  · intro h
    simp [spawn_claude_session, h]
  · intro h
    by_cases hc : containsKey reg s.id
    · simpa [spawn_claude_session, hc] using h
    · have hnk : s.id ∉ reg.map Prod.fst := by
        intro hmem
        exact hc ((containsKey_iff_mem_keys reg s.id).mpr hmem)
      by_cases ha : os.claude_available
      · by_cases hs : os.spawn_ok
        · simp only [spawn_claude_session, hc, ha, hs, Bool.not_true,
            Bool.false_eq_true, if_false]
          unfold NodupKeys at h ⊢
          rw [List.map_append]
          refine List.nodup_append.mpr ⟨h, List.nodup_singleton _, ?_⟩
          intro a ha' hb
          rw [List.map_singleton, List.mem_singleton] at hb
          subst hb
          exact hnk ha'
        · simpa [spawn_claude_session, hc, ha, hs] using h
      · simpa [spawn_claude_session, hc, ha] using h

/-- Witness for C1 at a concrete registry with a registered handle. -/
theorem spawn_already_running_unique_witness :
    spawn_claude_session { claude_available := true, spawn_ok := true }
        { id := "s1", project_id := none, status := SessionStatus.Active, created_at := 0 }
        none [("s1", { session_id := "s1", project_path := none })] =
      (Except.error (ProcessError.ProcessAlreadyRunning "s1"),
        [("s1", { session_id := "s1", project_path := none })]) :=
  (spawn_already_running_unique { claude_available := true, spawn_ok := true }
      { id := "s1", project_id := none, status := SessionStatus.Active, created_at := 0 }
      none [("s1", { session_id := "s1", project_path := none })]).1 (by decide)

/-- **C8.** `stop_session` on an unregistered identifier fails with
not-found and leaves the registry unchanged; on a registered identifier it
removes that handle (the identifier is no longer registered) and succeeds. -/
theorem stop_session_spec (sid : String) (reg : Registry) :
    (containsKey reg sid = false →
       stop_session sid reg = (Except.error (ProcessError.SessionNotFound sid), reg)) ∧
    (containsKey reg sid = true →
       stop_session sid reg = (Except.ok (), eraseKey reg sid) ∧
       containsKey (eraseKey reg sid) sid = false) := by
  constructor
  · intro h
    simp [stop_session, h]
  · intro h
    exact ⟨by simp [stop_session, h], containsKey_eraseKey_self reg sid⟩

/-- Witness for C8 at a concrete registry without the identifier. -/
theorem stop_session_spec_witness :
    stop_session "s2" [("s1", { session_id := "s1", project_path := none })] =
      (Except.error (ProcessError.SessionNotFound "s2"),
        [("s1", { session_id := "s1", project_path := none })]) :=
  (stop_session_spec "s2" [("s1", { session_id := "s1", project_path := none })]).1
    (by decide)

/-- **C10.** The registry membership check precedes the availability
probe: for an already-registered identifier, `spawn_claude_session`
returns already-running even when the `claude` executable is absent. -/
theorem spawn_registry_check_first (s : Session) (pp : Option String)
    (reg : Registry) (b : Bool) (h : containsKey reg s.id = true) :
    spawn_claude_session { claude_available := false, spawn_ok := b } s pp reg =
      (Except.error (ProcessError.ProcessAlreadyRunning s.id), reg) := by
  simp [spawn_claude_session, h]

/-- Witness for C10 with the executable unavailable. -/
theorem spawn_registry_check_first_witness :
    spawn_claude_session { claude_available := false, spawn_ok := false }
        { id := "s1", project_id := none, status := SessionStatus.Active, created_at := 0 }
        none [("s1", { session_id := "s1", project_path := none })] =
      (Except.error (ProcessError.ProcessAlreadyRunning "s1"),
        [("s1", { session_id := "s1", project_path := none })]) :=
  spawn_registry_check_first
    { id := "s1", project_id := none, status := SessionStatus.Active, created_at := 0 }
    none [("s1", { session_id := "s1", project_path := none })] false (by decide)

/-! ## Claim C2: status reconciliation -/

/-- **C2.** For a registered session whose process has exited,
`get_session_statuses` reports it as not-running and removes its handle,
so a second call (under any poll outcome) has no entry for it at all; a
registered session whose process is still running is reported as running
and stays registered. -/
theorem reconcile_statuses_spec (poll poll2 : String → TryWaitR)
    (reg : Registry) (sid : String) (h : ProcessHandle)
    (hmem : (sid, h) ∈ reg) :
    (poll sid = TryWaitR.exited →
       List.lookup sid (get_session_statuses poll reg).1 = some false ∧
       containsKey (get_session_statuses poll reg).2 sid = false ∧
       List.lookup sid
         (get_session_statuses poll2 (get_session_statuses poll reg).2).1 = none) ∧
    (poll sid = TryWaitR.running →
       List.lookup sid (get_session_statuses poll reg).1 = some true ∧
       containsKey (get_session_statuses poll reg).2 sid = true) := by
  constructor
  · intro hex
    have hps : pollStatus (poll sid) = false := by rw [hex]; rfl
    have hlk : List.lookup sid (get_session_statuses poll reg).1 = some false := by
      simpa [get_session_statuses, hps] using
        lookup_map_key_of_mem (fun t => pollStatus (poll t)) reg sid h hmem
    have hrm : sid ∈ ((reg.filter
        (fun p => !pollStatus (poll p.1))).map Prod.fst) := by
      exact List.mem_map.mpr ⟨(sid, h), List.mem_filter.mpr ⟨hmem, by simp [hps]⟩, rfl⟩
    have hck : containsKey (get_session_statuses poll reg).2 sid = false := by
      simpa [get_session_statuses] using
        containsKey_foldl_erase_of_mem
          ((reg.filter (fun p => !pollStatus (poll p.1))).map Prod.fst) reg sid hrm
    refine ⟨hlk, hck, ?_⟩
    simpa [get_session_statuses] using
      lookup_map_key_of_not_contains (fun t => pollStatus (poll2 t))
        (get_session_statuses poll reg).2 sid hck
  · intro hrun
    have hps : pollStatus (poll sid) = true := by rw [hrun]; rfl
    have hlk : List.lookup sid (get_session_statuses poll reg).1 = some true := by
      simpa [get_session_statuses, hps] using
        lookup_map_key_of_mem (fun t => pollStatus (poll t)) reg sid h hmem
    refine ⟨hlk, ?_⟩
    have hnot : sid ∉ ((reg.filter
        (fun p => !pollStatus (poll p.1))).map Prod.fst) := by
      intro hm
      rcases List.mem_map.mp hm with ⟨p, hp, hfst⟩
      rcases List.mem_filter.mp hp with ⟨_, hdead⟩
      rw [hfst] at hdead
      simp [hps] at hdead
    have hmem2 : (sid, h) ∈ (get_session_statuses poll reg).2 := by
      simpa [get_session_statuses] using
        mem_foldl_erase ((reg.filter (fun p => !pollStatus (poll p.1))).map Prod.fst)
          reg (sid, h) hmem hnot
    exact (containsKey_iff_mem_keys _ sid).mpr
      (List.mem_map.mpr ⟨(sid, h), hmem2, rfl⟩)

/-- Witness for C2: one registered handle whose process has exited. -/
theorem reconcile_statuses_spec_witness :
    List.lookup "s1" (get_session_statuses (fun _ => TryWaitR.exited)
        [("s1", { session_id := "s1", project_path := none })]).1 = some false ∧
    containsKey (get_session_statuses (fun _ => TryWaitR.exited)
        [("s1", { session_id := "s1", project_path := none })]).2 "s1" = false ∧
    List.lookup "s1" (get_session_statuses (fun _ => TryWaitR.running)
        (get_session_statuses (fun _ => TryWaitR.exited)
          [("s1", { session_id := "s1", project_path := none })]).2).1 = none :=
  (reconcile_statuses_spec (fun _ => TryWaitR.exited) (fun _ => TryWaitR.running)
      [("s1", { session_id := "s1", project_path := none })] "s1"
      { session_id := "s1", project_path := none } (by decide)).1 rfl

/-! ## Claim C5: crash-safety of the atomic write -/

theorem target_writeTmpStates (c : Content) (n : Nat) (d s : DiskState)
    (h : s ∈ writeTmpStates c n d) : s.target = d.target := by
  simp only [writeTmpStates, List.mem_append, List.mem_map, List.mem_range,
    List.mem_singleton] at h
  rcases h with ⟨k, _, rfl⟩ | rfl <;> rfl

theorem target_copyBackupStates (c : Content) (n : Nat) (d s : DiskState)
    (h : s ∈ copyBackupStates c n d) : s.target = d.target := by
  simp only [copyBackupStates, List.mem_append, List.mem_map, List.mem_range,
    List.mem_singleton] at h
  rcases h with ⟨k, _, rfl⟩ | rfl <;> rfl

/-- **C5.** At every point of the save sequence — backup copy, full write
of the new JSON to the temporary file, atomic rename — the target data
file is either the complete pre-write state or the complete new content;
in particular, if the target was not mid-write before the save, it is
never mid-write (truncated) at any intermediate point, including a crash
before the rename. -/
theorem save_trace_target_atomic (c : Content) (nb nw : Nat) (d : DiskState)
    (s : DiskState) (hs : s ∈ save_trace c nb nw d) :
    (s.target = d.target ∨ s.target = FileState.complete c) ∧
    ((∀ c0 k, d.target ≠ FileState.midWrite c0 k) →
      ∀ c0 k, s.target ≠ FileState.midWrite c0 k) := by
  have hmain : s.target = d.target ∨ s.target = FileState.complete c := by
    simp only [save_trace, List.mem_cons, List.mem_append, List.mem_singleton] at hs
    rcases hs with ((rfl | hs) | hs) | rfl | hemp
    · exact Or.inl rfl
    · -- backup-copy states: only the backup file moves
      left
      cases htgt : d.target with
      | complete old =>
          rw [htgt] at hs
          rw [target_copyBackupStates old nb d s hs]
          exact htgt
      | absent => rw [htgt] at hs; cases hs
      | midWrite c0 k => rw [htgt] at hs; cases hs
    · -- temporary-file write states: only the tmp file moves
      left
      cases htgt : d.target with
      | complete old =>
          rw [htgt] at hs
          rw [target_writeTmpStates c nw _ s hs]
      | absent =>
          rw [htgt] at hs
          rw [target_writeTmpStates c nw _ s hs]
          exact htgt
      | midWrite c0 k =>
          rw [htgt] at hs
          rw [target_writeTmpStates c nw _ s hs]
          exact htgt
    · -- after the rename: the target is the completely written tmp file
      right
      cases htgt : d.target <;> simp [renameTmp, htgt]
    · cases hemp
  refine ⟨hmain, ?_⟩
  intro hpre c0 k
  rcases hmain with he | he
  · rw [he]; exact hpre c0 k
  · rw [he]; intro hcontra; cases hcontra

/-- Witness for C5 at the state reached after a crash just before the
rename, with the target initially absent. -/
theorem save_trace_target_atomic_witness :
    ({ target := FileState.absent,
       tmp := FileState.midWrite (Content.sessJson SessionData.new) 0,
       backup := FileState.absent } : DiskState).target =
        ({ target := FileState.absent, tmp := FileState.absent,
           backup := FileState.absent } : DiskState).target ∨
    ({ target := FileState.absent,
       tmp := FileState.midWrite (Content.sessJson SessionData.new) 0,
       backup := FileState.absent } : DiskState).target =
        FileState.complete (Content.sessJson SessionData.new) :=
  (save_trace_target_atomic (Content.sessJson SessionData.new) 0 1
      { target := FileState.absent, tmp := FileState.absent,
        backup := FileState.absent }
      { target := FileState.absent,
        tmp := FileState.midWrite (Content.sessJson SessionData.new) 0,
        backup := FileState.absent }
      (by decide)).1

/-! ## Claim C3: save/load round-trip -/

/-- **C3 counterexample.** `dataGone` passes integrity validation, yet
`save` followed by `load` does not return it unchanged: `load` prunes the
project whose path does not exist (here the filesystem has no
directories), so the round-trip loses it. -/
theorem save_load_roundtrip_counterexample :
    validate_data_integrity dataGone = Except.ok () ∧
    save_then_load [] dataGone Store.empty ≠ Except.ok dataGone := by
  decide

/-- **C3 (amended).** `save(data)` followed by `load()` returns `data`
unchanged exactly under integrity validation AND existence of every
project's path as a directory; in particular the empty store round-trips. -/
theorem save_load_roundtrip (dirs : List String) (data : AppData) (st : Store)
    (hval : validate_data_integrity data = Except.ok ())
    (hdirs : ∀ p ∈ data.projects, p.dirPresent dirs = true) :
    save_then_load dirs data st = Except.ok data := by
  have hkept : data.projects.filter (fun p => p.dirPresent dirs) = data.projects :=
    List.filter_eq_self.mpr hdirs
  have hrem : data.projects.filter (fun p => !p.dirPresent dirs) = [] := by
    rw [List.filter_eq_nil_iff]
    intro p hp
    simp [hdirs p hp]
  have heta : { data with projects := data.projects } = data := rfl
  simp [save_then_load, save, hval, load, atomic_write, create_backup,
    Content.isBlank, parseAppData, validate_projects, hkept, hrem, heta]

/-- Witness for C3 (amended): the empty store round-trips through an
empty configuration directory. -/
theorem save_load_roundtrip_witness :
    save_then_load [] AppData.new Store.empty = Except.ok AppData.new :=
  save_load_roundtrip [] AppData.new Store.empty (by decide) (by simp [AppData.new])

/-! ## Claim C6: quarantine of unparseable session data -/

/-- **C6 counterexample.** A whitespace-only file parses as neither
schema, and `load_sessions` returns the empty default — but it takes the
blank-file early return, so no quarantine copy is created (the store is
returned unchanged, its quarantine list still empty). -/
theorem load_sessions_quarantine_counterexample :
    parseSessionData Content.blank = none ∧
    parseAppData Content.blank = none ∧
    load_sessions { dataFile := some Content.blank, backupFile := none, quarantine := [] } =
      Except.ok (SessionData.new,
        { dataFile := some Content.blank, backupFile := none, quarantine := [] }) := by
  decide

/-- **C6 (amended).** For every file content that is not whitespace-only
and fails to parse both as the current `SessionData` schema and as the
legacy `AppData` schema, `load_sessions` copies the unreadable content to
a fresh quarantine entry and returns the empty default instead of an
error (a whitespace-only file also yields the empty default, but without
a quarantine copy). -/
theorem load_sessions_quarantine (st : Store) (c : Content)
    (hdf : st.dataFile = some c) (hnb : c.isBlank = false)
    (hs : parseSessionData c = none) (ha : parseAppData c = none) :
    load_sessions st =
      Except.ok (SessionData.new, { st with quarantine := st.quarantine ++ [c] }) := by
  simp [load_sessions, hdf, hnb, hs, ha, create_corrupted_backup]

/-- Witness for C6 (amended) on concretely unparseable content. -/
theorem load_sessions_quarantine_witness :
    load_sessions garbageStore =
      Except.ok (SessionData.new, garbageStoreQuarantined) :=
  load_sessions_quarantine garbageStore (Content.garbage 0) rfl rfl rfl rfl

/-! ## Claim C7: missing or empty files load as defaults -/

/-- **C7.** When the data file is missing or whitespace-only, both `load`
and `load_sessions` return the empty defaults without error; and whenever
`load` returns an error, the data file was present with non-blank
content. -/
theorem load_defaults_spec (dirs : List String) (st : Store) :
    ((st.dataFile = none ∨ ∃ c, st.dataFile = some c ∧ c.isBlank = true) →
       load dirs st = Except.ok (AppData.new, st) ∧
       load_sessions st = Except.ok (SessionData.new, st)) ∧
    (∀ e, load dirs st = Except.error e →
       ∃ c, st.dataFile = some c ∧ c.isBlank = false) := by
  constructor
  · rintro (hn | ⟨c, hc, hb⟩)
    · exact ⟨by simp [load, hn], by simp [load_sessions, hn]⟩
    · exact ⟨by simp [load, hc, hb], by simp [load_sessions, hc, hb]⟩
  · intro e herr
    cases hdf : st.dataFile with
    | none => rw [load, hdf] at herr; cases herr
    | some c =>
        refine ⟨c, rfl, ?_⟩
        cases hb : c.isBlank with
        | false => rfl
        | true => rw [load, hdf] at herr; simp [hb] at herr

/-- Witness for C7 on the empty configuration directory. -/
theorem load_defaults_spec_witness :
    load [] Store.empty = Except.ok (AppData.new, Store.empty) ∧
    load_sessions Store.empty = Except.ok (SessionData.new, Store.empty) :=
  (load_defaults_spec [] Store.empty).1 (Or.inl rfl)

/-! ## Claim C4: workspace rollback -/

theorem contains_addDir_self (fs : FsState) (p : String) :
    (addDir fs p).contains p = true := by
  unfold addDir
  by_cases h : fs.contains p = true
  · rw [if_pos h]; exact h
  · rw [if_neg h]
    exact List.elem_iff.mpr (List.mem_append_right fs (List.mem_singleton.mpr rfl))

theorem contains_addDir_of_contains (fs : FsState) (p q : String)
    (h : fs.contains q = true) : (addDir fs p).contains q = true := by
  unfold addDir
  by_cases hp : fs.contains p = true
  · rw [if_pos hp]; exact h
  · rw [if_neg hp]
    exact List.elem_iff.mpr (List.mem_append_left _ (List.elem_iff.mp h))

theorem contains_removeDirAll_self (fs : FsState) (p : String) :
    (removeDirAll fs p).contains p = false := by
  rw [← Bool.not_eq_true]
  intro hc
  have hkeep := (List.mem_filter.mp (List.elem_iff.mp hc)).2
  simp at hkeep

theorem contains_removeDirAll_of_false (fs : FsState) (p q : String)
    (h : fs.contains q = false) : (removeDirAll fs p).contains q = false := by
  rw [← Bool.not_eq_true] at h ⊢
  intro hc
  exact h (List.elem_iff.mpr ((List.mem_filter.mp (List.elem_iff.mp hc)).1))

/-- **C4 counterexample.** With an initially empty filesystem, a failure
at the worktree-add step leaves the worktree parent directory
`/home/u/.claudectl/projects/repo` — created by this execution via
`create_dir_all` but never registered with the cleanup guard — on disk,
so not every directory created by the failing execution is removed. -/
theorem initWorkspace_rollback_counterexample :
    initWorkspace envAddFails "w1" "n" [] =
      (Except.error (ClaudeCtlError.Git "Error creating git worktree"),
        ["/home/u/.claudectl/projects/repo"]) := by
  decide

/-- **C4 (amended).** When the name validates and the home directory is
known, any failing execution of `workspace::initialize` removes both
guard-registered paths — the local workspace directory and the worktree
path — before returning the error (the worktree parent directory may be
left behind); a successful execution leaves the workspace directory, the
worktree parent and the worktree path all on disk. -/
theorem initWorkspace_rollback (env : InitEnv) (workspace_id name : String)
    (fs : FsState) (h : String)
    (hhome : env.home = some h)
    (hval : validate_workspace_name name = Except.ok ()) :
    (∀ e, (initWorkspace env workspace_id name fs).1 = Except.error e →
       ((initWorkspace env workspace_id name fs).2.contains
          (workspace_dir_of workspace_id)) = false ∧
       ((initWorkspace env workspace_id name fs).2.contains
          (worktree_path_of h env.repo_name workspace_id)) = false) ∧
    ((initWorkspace env workspace_id name fs).1 = Except.ok () →
       ((initWorkspace env workspace_id name fs).2.contains
          (workspace_dir_of workspace_id)) = true ∧
       ((initWorkspace env workspace_id name fs).2.contains
          (worktree_parent_of h env.repo_name)) = true ∧
       ((initWorkspace env workspace_id name fs).2.contains
          (worktree_path_of h env.repo_name workspace_id)) = true) := by
  have hguard : ∀ fs0 : FsState,
      (cleanupPaths fs0 [workspace_dir_of workspace_id,
        worktree_path_of h env.repo_name workspace_id]).contains
          (workspace_dir_of workspace_id) = false ∧
      (cleanupPaths fs0 [workspace_dir_of workspace_id,
        worktree_path_of h env.repo_name workspace_id]).contains
          (worktree_path_of h env.repo_name workspace_id) = false := by
    intro fs0
    constructor
    · exact contains_removeDirAll_of_false _ _ _
        (contains_removeDirAll_self fs0 (workspace_dir_of workspace_id))
    · exact contains_removeDirAll_self _ _
  unfold initWorkspace
  rw [hval, hhome]
  cases hbr : env.current_branch with
  | error e0 =>
      refine ⟨fun e he => ?_, fun hok => ?_⟩
      · simpa using hguard _
      · simp at hok
  | ok br =>
      cases hadd : env.worktree_add_ok with
      | false =>
          refine ⟨fun e he => ?_, fun hok => ?_⟩
          · simpa using hguard _
          · simp at hok
      | true =>
          cases hcfg : env.config_save_ok with
          | false =>
              refine ⟨fun e he => ?_, fun hok => ?_⟩
              · simpa using hguard _
              · simp at hok
          | true =>
              refine ⟨fun e he => ?_, fun hok => ?_⟩
              · simp at he
              · refine ⟨?_, ?_, ?_⟩
                · simp only []
                  exact contains_addDir_of_contains _ _ _
                    (contains_addDir_of_contains _ _ _
                      (contains_addDir_self fs (workspace_dir_of workspace_id)))
                · exact contains_addDir_of_contains _ _ _
                    (contains_addDir_self _ _)
                · exact contains_addDir_self _ _

/-- Witness for C4 (amended): a successful run leaves all three
directories on disk. -/
theorem initWorkspace_rollback_witness :
    ((initWorkspace envAllOk "w1" "n" []).2.contains
       (workspace_dir_of "w1")) = true ∧
    ((initWorkspace envAllOk "w1" "n" []).2.contains
       (worktree_parent_of "/home/u" "repo")) = true ∧
    ((initWorkspace envAllOk "w1" "n" []).2.contains
       (worktree_path_of "/home/u" "repo" "w1")) = true :=
  (initWorkspace_rollback envAllOk "w1" "n" [] "/home/u" rfl (by decide)).2
    (by decide)

/-! ## Claim C9: derived stats after mutations -/

/-- **C9 counterexample.** Changing a session's status through
`get_session_mut` + `stop()` does not recompute the aggregate stats: after
adding one Active session and then stopping it, `active_sessions` still
reads 1 while the collections contain no Active session. -/
theorem stats_after_status_change_counterexample :
    AppData.stats_ok ((AppData.new.add_session sessA).stop_session_status "s1") = false := by
  decide

/-- **C9 (amended).** The collection mutators `add_project`,
`remove_project`, `add_session` on `AppData` and `add_session`,
`remove_session` on `SessionData` leave the aggregate stats equal to the
values recomputed from the collections; a bare status change does not, and
the stats agree with the collections again only after an explicit
`update_stats` call. -/
theorem stats_recomputed_after_mutations :
    (∀ (d : AppData) (p : Project), (d.add_project p).stats_ok = true) ∧
    (∀ (d : AppData) (s : Session), (d.add_session s).stats_ok = true) ∧
    (∀ (d : AppData) (pid : String), d.stats_ok = true →
       (d.remove_project pid).2.stats_ok = true) ∧
    (∀ (d : SessionData) (s : Session), (d.add_session s).stats_ok = true) ∧
    (∀ (d : SessionData) (sid : String), d.stats_ok = true →
       (d.remove_session sid).2.stats_ok = true) ∧
    (∀ (d : AppData) (sid : String),
       ((d.stop_session_status sid).update_stats).stats_ok = true) := by
  refine ⟨?_, ?_, ?_, ?_, ?_, ?_⟩
  · intro d p
    simp [AppData.add_project, AppData.update_stats, AppData.stats_ok]
  · intro d s
    simp [AppData.add_session, AppData.update_stats, AppData.stats_ok]
  · intro d pid hok
    cases hf : d.projects.find? (fun p => p.id == pid) with
    | none => simpa [AppData.remove_project, hf] using hok
    | some p =>
        simp [AppData.remove_project, hf, AppData.update_stats, AppData.stats_ok]
  · intro d s
    simp [SessionData.add_session, SessionData.update_stats, SessionData.stats_ok]
  · intro d sid hok
    cases hf : d.sessions.find? (fun s => s.id == sid) with
    | none => simpa [SessionData.remove_session, hf] using hok
    | some s =>
        simp [SessionData.remove_session, hf, SessionData.update_stats,
          SessionData.stats_ok]
  · intro d sid
    simp [AppData.stop_session_status, AppData.update_stats, AppData.stats_ok]

/-- Witness for C9 (amended): removing a project from a consistent state
keeps the stats consistent. -/
theorem stats_recomputed_after_mutations_witness :
    ((AppData.new.add_project projGone).remove_project "p1").2.stats_ok = true :=
  stats_recomputed_after_mutations.2.2.1 (AppData.new.add_project projGone) "p1"
    (by decide)

end Claudectl

